import Mathlib

/-!
Shallow embedding of the rendering / interaction core of the charts
repository (`src/GpuScatterGrid.tsx`, embedded in `src/App.tsx`):
the per-panel coordinate normalizer (`prepared`), the grid layout
(`rows` / `heightPx`), the per-panel draw decision of the tiled
renderer (`render`), and the pointer hit-tester (`handleMouseMove`).

JavaScript numbers are modelled by exact rationals `ℚ`; the
`Float32Array`s of a `Prepared` panel are modelled by lists holding the
same values.  JS `a || b` on numbers (falsy `0`) is modelled by an
explicit test against `0`.
-/

namespace GpuScatterGrid

/-- One data point of a panel: `{ x, y, size?, color? }`
(time, price, optional magnitude, optional RGB triple). -/
structure Point where
  x : ℚ
  y : ℚ
  size : Option ℚ
  color : Option (ℚ × ℚ × ℚ)
  deriving Repr, DecidableEq

/-- `ChartData`: one panel. `title` and `side` are display-only strings
with no effect on the geometry and are omitted; `color` is the optional
per-panel fallback color. -/
structure ChartData where
  id : String
  points : List Point
  color : Option (ℚ × ℚ × ℚ)
  deriving Repr, DecidableEq

/-- `Prepared`: the derived per-panel record built by the `prepared`
memo.  `pos` holds one clip-space pair per point (the source flattens
them into a `Float32Array` of length `2*count`), `size` one visual size
per point, `color` one RGB triple per point. -/
structure Prepared where
  id : String
  pos : List (ℚ × ℚ)
  size : List ℚ
  color : List (ℚ × ℚ × ℚ)
  count : ℕ
  xmin : ℚ
  xmax : ℚ
  ymin : ℚ
  ymax : ℚ
  deriving Repr, DecidableEq

/-- The scan loop's running minimum of `f` over the points (the source
starts from `Infinity` and folds `min`; over a nonempty list that is a
fold starting at the first element). -/
def foldMin (f : Point → ℚ) : List Point → ℚ
  | [] => 0
  | p :: ps => ps.foldl (fun m q => min m (f q)) (f p)

/-- The scan loop's running maximum of `f` over the points. -/
def foldMax (f : Point → ℚ) : List Point → ℚ
  | [] => 0
  | p :: ps => ps.foldl (fun m q => max m (f q)) (f p)

/-- `p.size ?? 1` of the scan loop. -/
def sizeOrOne (p : Point) : ℚ := p.size.getD 1

/-- Raw scan bound `xmin` of a panel's points. -/
def rawXmin (ps : List Point) : ℚ := foldMin (fun p => p.x) ps

/-- Raw scan bound `xmax`. -/
def rawXmax (ps : List Point) : ℚ := foldMax (fun p => p.x) ps

/-- Raw scan bound `ymin`. -/
def rawYmin (ps : List Point) : ℚ := foldMin (fun p => p.y) ps

/-- Raw scan bound `ymax`. -/
def rawYmax (ps : List Point) : ℚ := foldMax (fun p => p.y) ps

/-- Raw scan bound `smin` over `p.size ?? 1`. -/
def rawSmin (ps : List Point) : ℚ := foldMin sizeOrOne ps

/-- Raw scan bound `smax` over `p.size ?? 1`. -/
def rawSmax (ps : List Point) : ℚ := foldMax sizeOrOne ps

/-- `const padding = 0.05` — 5% range padding. -/
def padding : ℚ := 5 / 100

/-- `const dx = xmax - xmin || 1`: the raw x-span with fallback 1 when
the span is `0` (JS `||` on a falsy `0`). -/
def dxOf (ps : List Point) : ℚ :=
  if rawXmax ps - rawXmin ps = 0 then 1 else rawXmax ps - rawXmin ps

/-- `const dy = ymax - ymin || 1`. -/
def dyOf (ps : List Point) : ℚ :=
  if rawYmax ps - rawYmin ps = 0 then 1 else rawYmax ps - rawYmin ps

/-- `const ds = smax - smin || 1`. -/
def dsOf (ps : List Point) : ℚ :=
  if rawSmax ps - rawSmin ps = 0 then 1 else rawSmax ps - rawSmin ps

/-- Padded lower x bound: `xmin -= dx * padding` of normalization
step 3 (the local `xmin` after mutation). -/
def pXmin (ps : List Point) : ℚ := rawXmin ps - dxOf ps * padding

/-- Padded upper x bound: `xmax += dx * padding`. -/
def pXmax (ps : List Point) : ℚ := rawXmax ps + dxOf ps * padding

/-- Padded lower y bound: `ymin -= dy * padding`. -/
def pYmin (ps : List Point) : ℚ := rawYmin ps - dyOf ps * padding

/-- Padded upper y bound: `ymax += dy * padding`. -/
def pYmax (ps : List Point) : ℚ := rawYmax ps + dyOf ps * padding

/-- `Math.max(0, Math.min(1, t))` — the clamp of the point loop. -/
def clamp01 (t : ℚ) : ℚ := max 0 (min 1 t)

/-- `ux = (p.x - xmin) / (xmax - xmin)` against the padded bounds,
then clamped to `[0,1]`. -/
def uxOf (c : ChartData) (p : Point) : ℚ :=
  clamp01 ((p.x - pXmin c.points) / (pXmax c.points - pXmin c.points))

/-- `uy = (p.y - ymin) / (ymax - ymin)` against the padded bounds,
then clamped to `[0,1]`. -/
def uyOf (c : ChartData) (p : Point) : ℚ :=
  clamp01 ((p.y - pYmin c.points) / (pYmax c.points - pYmin c.points))

/-- `paddedUx = 0.15 + ux * 0.7` — render-space x in `[0.15, 0.85]`. -/
def paddedUx (c : ChartData) (p : Point) : ℚ := 15 / 100 + uxOf c p * (7 / 10)

/-- `paddedUy = 0.15 + uy * 0.7` — render-space y in `[0.15, 0.85]`. -/
def paddedUy (c : ChartData) (p : Point) : ℚ := 15 / 100 + uyOf c p * (7 / 10)

/-- `pos[2*i] = paddedUx * 2 - 1` — clip-space x. -/
def clipX (c : ChartData) (p : Point) : ℚ := paddedUx c p * 2 - 1

/-- `pos[2*i+1] = (1 - paddedUy) * 2 - 1` — clip-space y (flipped). -/
def clipY (c : ChartData) (p : Point) : ℚ := (1 - paddedUy c p) * 2 - 1

/-- Visual size of one point:
`size[i] = psr[0] + ((p.size ?? 1) - smin) / ds * (psr[1] - psr[0])`. -/
def visualSize (psr : ℚ × ℚ) (c : ChartData) (p : Point) : ℚ :=
  psr.1 + (sizeOrOne p - rawSmin c.points) / dsOf c.points * (psr.2 - psr.1)

/-- Color of one point: `p.color ?? c.color ?? defaultColor`. -/
def pointColor (defaultColor : ℚ × ℚ × ℚ) (c : ChartData) (p : Point) :
    ℚ × ℚ × ℚ :=
  (p.color.orElse fun _ => c.color).getD defaultColor

/-- The `prepared` memo, for one panel: empty panels get empty arrays
and default unit bounds; otherwise the arrays are built point by point
and the stored bounds are `xmin + dx*padding`, `xmax - dx*padding`,
`ymin + dy*padding`, `ymax - dy*padding` computed from the mutated
(padded) locals, exactly as the source returns them. -/
def preparedPanel (psr : ℚ × ℚ) (defaultColor : ℚ × ℚ × ℚ)
    (c : ChartData) : Prepared :=
  if c.points = [] then
    { id := c.id, pos := [], size := [], color := [], count := 0
      xmin := 0, xmax := 1, ymin := 0, ymax := 1 }
  else
    { id := c.id
      pos := c.points.map fun p => (clipX c p, clipY c p)
      size := c.points.map fun p => visualSize psr c p
      color := c.points.map fun p => pointColor defaultColor c p
      count := c.points.length
      xmin := pXmin c.points + dxOf c.points * padding
      xmax := pXmax c.points - dxOf c.points * padding
      ymin := pYmin c.points + dyOf c.points * padding
      ymax := pYmax c.points - dyOf c.points * padding }

/-- Default `pointSizeRange = [2, 12]` passed by `App`. -/
def appPointSizeRange : ℚ × ℚ := (2, 12)

/-- Default `defaultColor = [0.35, 0.52, 0.92]`. -/
def appDefaultColor : ℚ × ℚ × ℚ := (35 / 100, 52 / 100, 92 / 100)

/-- `prepared` over the whole chart list. -/
def preparedAll (psr : ℚ × ℚ) (defaultColor : ℚ × ℚ × ℚ)
    (charts : List ChartData) : List Prepared :=
  charts.map (preparedPanel psr defaultColor)

/-! ## Grid layout -/

/-- `rows = Math.ceil(prepared.length / columns)` (JS float division,
then ceiling). -/
def rowsOf (n cols : ℕ) : ℤ := ⌈(n : ℚ) / (cols : ℚ)⌉

/-- Total canvas height as a function of the row count:
`rows * cellHeight + Math.max(0, rows - 1) * cellGap + 40`. -/
def heightOfRows (r : ℤ) (cellH gap : ℚ) : ℚ :=
  (r : ℚ) * cellH + ((max 0 (r - 1) : ℤ) : ℚ) * gap + 40

/-- `heightPx` of the component for `n` panels. -/
def heightPx (n cols : ℕ) (cellH gap : ℚ) : ℚ :=
  heightOfRows (rowsOf n cols) cellH gap

/-- `heightPx` as the component computes it, from the chart list
(only the list's length enters). -/
def gridHeight (charts : List ChartData) (cols : ℕ) (cellH gap : ℚ) : ℚ :=
  heightPx charts.length cols cellH gap

/-- `cellW = (width - (cols - 1) * gap) / cols` — shared by the render
loop (with the canvas CSS width) and the hit-tester (with the bounding
rectangle width). -/
def cellWOf (cols : ℕ) (gap width : ℚ) : ℚ :=
  (width - ((cols : ℚ) - 1) * gap) / (cols : ℚ)

/-- Column of panel `i` in the render loop: `col = i % cols`. -/
def panelCol (i cols : ℕ) : ℕ := i % cols

/-- Row of panel `i` in the render loop: `row = Math.floor(i / cols)`. -/
def panelRow (i cols : ℕ) : ℕ := i / cols

/-! ## Tiled renderer: the per-panel draw decision -/

/-- The render loop body for panel `i`, down to the guard of the draw
call: computes the cell's vertical placement, the bottom-up viewport
origin and its clamped variants, and reports whether `drawPoints` is
invoked (`safeViewportY >= 0 && safeY < cssHeight && buffers[i].count > 0`);
the horizontal placement `x`, `w` does not enter the guard. -/
def issuesDrawCall (i cols : ℕ) (cellH gap cssHeight : ℚ)
    (count : ℕ) : Bool :=
  let y : ℤ := ⌊(panelRow i cols : ℚ) * (cellH + gap)⌋
  let h : ℤ := ⌊cellH⌋
  let viewportY : ℤ := ⌊cssHeight - ((y : ℚ) + (h : ℚ))⌋
  let safeViewportY : ℚ := max 0 (min (viewportY : ℚ) (cssHeight - (h : ℚ)))
  let safeY : ℚ := max 0 (min (y : ℚ) (cssHeight - (h : ℚ)))
  decide (0 ≤ safeViewportY) && decide (safeY < cssHeight) && decide (0 < count)

/-! ## Hit-tester / tooltip resolver -/

/-- Tooltip classification of a returned point. -/
inductive Side where
  | Up : Side
  | Down : Side
  deriving Repr, DecidableEq

/-- One entry of the tooltip payload. -/
structure TooltipPoint where
  price : ℚ
  time : ℚ
  size : ℚ
  side : Side
  deriving Repr, DecidableEq

/-- `const isUpTrade = p.color && p.color[0] > p.color[1]` — truthy
exactly when a color is present and its red channel strictly exceeds
its green channel. -/
def isUpTrade (p : Point) : Bool :=
  match p.color with
  | none => false
  | some c => decide (c.2.1 < c.1)

/-- The tooltip payload entry built for one nearby point:
`{ price: p.y, time: p.x, size: p.size || 1, side: isUpTrade ? "Up" : "Down" }`
(JS `||` treats a size of `0` as falsy and substitutes `1`). -/
def toTooltipPoint (p : Point) : TooltipPoint :=
  { price := p.y
    time := p.x
    size := match p.size with
            | none => 1
            | some s => if s = 0 then 1 else s
    side := if isUpTrade p then Side.Up else Side.Down }

/-- `col = Math.floor(mouseX / (cellW + gap))`. -/
def colAt (cols : ℕ) (gap width mouseX : ℚ) : ℤ :=
  ⌊mouseX / (cellWOf cols gap width + gap)⌋

/-- `row = Math.floor(mouseY / (cellH + gap))`. -/
def rowAt (cellH gap mouseY : ℚ) : ℤ :=
  ⌊mouseY / (cellH + gap)⌋

/-- `chartIndex = row * cols + col`. -/
def chartIndexAt (cols : ℕ) (cellH gap width mouseX mouseY : ℚ) : ℤ :=
  rowAt cellH gap mouseY * (cols : ℤ) + colAt cols gap width mouseX

/-- The data-coordinate filter of the hit-tester: local cell position →
normalized `[0,1]` cursor position → inverse of the 15% margin remap →
data coordinates via the stored bounds of the `Prepared` panel → all
points within the 2%-of-span tolerance window. -/
def nearbyPointsOf (chart : ChartData) (prep : Prepared)
    (cellW cellH localX localY : ℚ) : List Point :=
  let normX := localX / cellW
  let normY := localY / cellH
  let unpaddedX := clamp01 ((normX - 15 / 100) / (7 / 10))
  let unpaddedY := clamp01 ((normY - 15 / 100) / (7 / 10))
  let cursorTime := prep.xmin + unpaddedX * (prep.xmax - prep.xmin)
  let cursorPrice := prep.ymax - unpaddedY * (prep.ymax - prep.ymin)
  let timeThreshold := (prep.xmax - prep.xmin) * (2 / 100)
  let priceThreshold := (prep.ymax - prep.ymin) * (2 / 100)
  chart.points.filter fun point =>
    decide (|point.x - cursorTime| < timeThreshold) &&
    decide (|point.y - cursorPrice| < priceThreshold)

/-- The tooltip outcome once a cell and its panel are fixed:
`setTooltip(...)` with the mapped nearby points when some exist,
`setTooltip(null)` otherwise. -/
def tooltipFor (chart : ChartData) (prep : Prepared)
    (cellW cellH localX localY : ℚ) : Option (List TooltipPoint) :=
  let nearby := nearbyPointsOf chart prep cellW cellH localX localY
  if nearby = [] then none else some (nearby.map toTooltipPoint)

/-- `handleMouseMove`, as the tooltip it sets (`none` = `setTooltip(null)`):
cell lookup by floor division, bound check `0 ≤ chartIndex < charts.length`,
in-cell rectangle check, then the tolerance-window filter. -/
def handleMouseMove (charts : List ChartData) (prepared : List Prepared)
    (cols : ℕ) (cellH gap width mouseX mouseY : ℚ) :
    Option (List TooltipPoint) :=
  let cellW := cellWOf cols gap width
  let col := colAt cols gap width mouseX
  let row := rowAt cellH gap mouseY
  let chartIndex := chartIndexAt cols cellH gap width mouseX mouseY
  if 0 ≤ chartIndex ∧ chartIndex < (charts.length : ℤ) then
    match charts[chartIndex.toNat]?, prepared[chartIndex.toNat]? with
    | some chart, some prep =>
      let localX := mouseX - (col : ℚ) * (cellW + gap)
      let localY := mouseY - (row : ℚ) * (cellH + gap)
      if 0 ≤ localX ∧ localX ≤ cellW ∧ 0 ≤ localY ∧ localY ≤ cellH then
        tooltipFor chart prep cellW cellH localX localY
      else none
    | _, _ => none
  else none

/-! ## Concrete panels used by the scenarios -/

/-- Panel A of the specification's scenario:
points `(t=0, p=0.10)` and `(t=10, p=0.20)`. -/
def panelA : ChartData :=
  { id := "A"
    points := [⟨0, 1 / 10, none, none⟩, ⟨10, 1 / 5, none, none⟩]
    color := none }

/-- The point `(t=0, p=0.10)` of panel A. -/
def pA0 : Point := ⟨0, 1 / 10, none, none⟩

/-- A degenerate-range panel: one single point `(t=5, p=3)`. -/
def panelD : ChartData := { id := "D", points := [⟨5, 3, none, none⟩], color := none }

/-- A panel with zero points. -/
def panelE : ChartData := { id := "E", points := [], color := none }

/-! ## Helper lemmas on the scan folds -/

theorem foldl_min_le_init (f : Point → ℚ) (l : List Point) (a : ℚ) :
    l.foldl (fun m q => min m (f q)) a ≤ a := by
  induction l generalizing a with
  | nil => exact le_refl a
  | cons q l ih =>
    exact le_trans (ih (min a (f q))) (min_le_left a (f q))

theorem foldl_min_le_mem (f : Point → ℚ) (l : List Point) (a : ℚ)
    (q : Point) (hq : q ∈ l) : l.foldl (fun m q => min m (f q)) a ≤ f q := by
  induction l generalizing a with
  | nil => cases hq
  | cons r l ih =>
    rcases List.mem_cons.mp hq with h | h
    · subst h
      exact le_trans (foldl_min_le_init f l (min a (f q))) (min_le_right a (f q))
    · exact ih (min a (f r)) h

theorem init_le_foldl_max (f : Point → ℚ) (l : List Point) (a : ℚ) :
    a ≤ l.foldl (fun m q => max m (f q)) a := by
  induction l generalizing a with
  | nil => exact le_refl a
  | cons q l ih =>
    exact le_trans (le_max_left a (f q)) (ih (max a (f q)))

theorem mem_le_foldl_max (f : Point → ℚ) (l : List Point) (a : ℚ)
    (q : Point) (hq : q ∈ l) : f q ≤ l.foldl (fun m q => max m (f q)) a := by
  induction l generalizing a with
  | nil => cases hq
  | cons r l ih =>
    rcases List.mem_cons.mp hq with h | h
    · subst h
      exact le_trans (le_max_right a (f q)) (init_le_foldl_max f l (max a (f q)))
    · exact ih (max a (f r)) h

theorem foldMin_le_of_mem (f : Point → ℚ) (ps : List Point) (q : Point)
    (hq : q ∈ ps) : foldMin f ps ≤ f q := by
  cases ps with
  | nil => cases hq
  | cons p l =>
    rcases List.mem_cons.mp hq with h | h
    · subst h; exact foldl_min_le_init f l (f q)
    · exact foldl_min_le_mem f l (f p) q h

theorem le_foldMax_of_mem (f : Point → ℚ) (ps : List Point) (q : Point)
    (hq : q ∈ ps) : f q ≤ foldMax f ps := by
  cases ps with
  | nil => cases hq
  | cons p l =>
    rcases List.mem_cons.mp hq with h | h
    · subst h; exact init_le_foldl_max f l (f q)
    · exact mem_le_foldl_max f l (f p) q h

theorem foldl_min_const (f : Point → ℚ) (l : List Point) (a : ℚ)
    (h : ∀ q ∈ l, f q = a) : l.foldl (fun m q => min m (f q)) a = a := by
  induction l with
  | nil => rfl
  | cons q l ih =>
    have hq : f q = a := h q (List.mem_cons_self q l)
    simp only [List.foldl_cons, hq, min_self]
    exact ih fun r hr => h r (List.mem_cons_of_mem q hr)

theorem foldl_max_const (f : Point → ℚ) (l : List Point) (a : ℚ)
    (h : ∀ q ∈ l, f q = a) : l.foldl (fun m q => max m (f q)) a = a := by
  induction l with
  | nil => rfl
  | cons q l ih =>
    have hq : f q = a := h q (List.mem_cons_self q l)
    simp only [List.foldl_cons, hq, max_self]
    exact ih fun r hr => h r (List.mem_cons_of_mem q hr)

theorem foldMin_const (f : Point → ℚ) (ps : List Point) (p : Point)
    (hp : p ∈ ps) (h : ∀ q ∈ ps, f q = f p) : foldMin f ps = f p := by
  cases ps with
  | nil => cases hp
  | cons r l =>
    have hr : f r = f p := h r (List.mem_cons_self r l)
    simp only [foldMin, hr]
    exact foldl_min_const f l (f p) fun q hq => h q (List.mem_cons_of_mem r hq)

theorem foldMax_const (f : Point → ℚ) (ps : List Point) (p : Point)
    (hp : p ∈ ps) (h : ∀ q ∈ ps, f q = f p) : foldMax f ps = f p := by
  cases ps with
  | nil => cases hp
  | cons r l =>
    have hr : f r = f p := h r (List.mem_cons_self r l)
    simp only [foldMax, hr]
    exact foldl_max_const f l (f p) fun q hq => h q (List.mem_cons_of_mem r hq)

/-! ## The stored bounds of a nonempty prepared panel -/

theorem preparedPanel_xmin (psr : ℚ × ℚ) (dc : ℚ × ℚ × ℚ) (c : ChartData)
    (h : c.points ≠ []) :
    (preparedPanel psr dc c).xmin = rawXmin c.points := by
  rw [preparedPanel, if_neg h]
  show pXmin c.points + dxOf c.points * padding = rawXmin c.points
  rw [pXmin]; ring

theorem preparedPanel_xmax (psr : ℚ × ℚ) (dc : ℚ × ℚ × ℚ) (c : ChartData)
    (h : c.points ≠ []) :
    (preparedPanel psr dc c).xmax = rawXmax c.points := by
  rw [preparedPanel, if_neg h]
  show pXmax c.points - dxOf c.points * padding = rawXmax c.points
  rw [pXmax]; ring

theorem preparedPanel_ymin (psr : ℚ × ℚ) (dc : ℚ × ℚ × ℚ) (c : ChartData)
    (h : c.points ≠ []) :
    (preparedPanel psr dc c).ymin = rawYmin c.points := by
  rw [preparedPanel, if_neg h]
  show pYmin c.points + dyOf c.points * padding = rawYmin c.points
  rw [pYmin]; ring

theorem preparedPanel_ymax (psr : ℚ × ℚ) (dc : ℚ × ℚ × ℚ) (c : ChartData)
    (h : c.points ≠ []) :
    (preparedPanel psr dc c).ymax = rawYmax c.points := by
  rw [preparedPanel, if_neg h]
  show pYmax c.points - dyOf c.points * padding = rawYmax c.points
  rw [pYmax]; ring

theorem preparedPanel_count (psr : ℚ × ℚ) (dc : ℚ × ℚ × ℚ) (c : ChartData)
    (h : c.points ≠ []) :
    (preparedPanel psr dc c).count = c.points.length := by
  rw [preparedPanel, if_neg h]

theorem preparedPanel_count_nil (psr : ℚ × ℚ) (dc : ℚ × ℚ × ℚ) (c : ChartData)
    (h : c.points = []) : (preparedPanel psr dc c).count = 0 := by
  rw [preparedPanel, if_pos h]

theorem preparedPanel_pos (psr : ℚ × ℚ) (dc : ℚ × ℚ × ℚ) (c : ChartData)
    (h : c.points ≠ []) :
    (preparedPanel psr dc c).pos = c.points.map fun p => (clipX c p, clipY c p) := by
  rw [preparedPanel, if_neg h]

/-! ## Raw and padded bounds of panel A, evaluated -/

theorem panelA_rawXmin : rawXmin panelA.points = 0 := by
  show foldMin (fun p => p.x) panelA.points = 0
  norm_num [panelA, foldMin]

theorem panelA_rawXmax : rawXmax panelA.points = 10 := by
  show foldMax (fun p => p.x) panelA.points = 10
  norm_num [panelA, foldMax]

theorem panelA_rawYmin : rawYmin panelA.points = 1 / 10 := by
  show foldMin (fun p => p.y) panelA.points = 1 / 10
  norm_num [panelA, foldMin]

theorem panelA_rawYmax : rawYmax panelA.points = 1 / 5 := by
  show foldMax (fun p => p.y) panelA.points = 1 / 5
  norm_num [panelA, foldMax]

theorem panelA_pXmin : pXmin panelA.points = -(1 / 2) := by
  rw [pXmin, dxOf, panelA_rawXmin, panelA_rawXmax, padding]; norm_num

theorem panelA_pXmax : pXmax panelA.points = 21 / 2 := by
  rw [pXmax, dxOf, panelA_rawXmin, panelA_rawXmax, padding]; norm_num

theorem panelA_pYmin : pYmin panelA.points = 19 / 200 := by
  rw [pYmin, dyOf, panelA_rawYmin, panelA_rawYmax, padding]; norm_num

theorem panelA_pYmax : pYmax panelA.points = 41 / 200 := by
  rw [pYmax, dyOf, panelA_rawYmin, panelA_rawYmax, padding]; norm_num

theorem panelA_paddedUx : paddedUx panelA pA0 = 2 / 11 := by
  rw [paddedUx, uxOf, panelA_pXmin, panelA_pXmax, clamp01, pA0]
  norm_num

theorem panelA_paddedUy : paddedUy panelA pA0 = 2 / 11 := by
  rw [paddedUy, uyOf, panelA_pYmin, panelA_pYmax, clamp01, pA0]
  norm_num

theorem panelA_clipX : clipX panelA pA0 = -(7 / 11) := by
  rw [clipX, panelA_paddedUx]; norm_num

theorem panelA_clipY : clipY panelA pA0 = 7 / 11 := by
  rw [clipY, panelA_paddedUy]; norm_num

theorem panelA_ne_nil : panelA.points ≠ [] := by simp [panelA]

theorem panelD_ne_nil : panelD.points ≠ [] := by simp [panelD]

/-! ## Clamp lemmas -/

theorem clamp01_nonneg (t : ℚ) : 0 ≤ clamp01 t := le_max_left 0 (min 1 t)

theorem clamp01_le_one (t : ℚ) : clamp01 t ≤ 1 :=
  max_le zero_le_one (min_le_left 1 t)

theorem clamp01_eq_self (t : ℚ) (h0 : 0 ≤ t) (h1 : t ≤ 1) : clamp01 t = t := by
  rw [clamp01, min_eq_right h1, max_eq_right h0]

/-! ## Degenerate single-point panel D, evaluated -/

theorem panelD_rawXmin : rawXmin panelD.points = 5 := rfl

theorem panelD_rawXmax : rawXmax panelD.points = 5 := rfl

theorem panelD_rawYmin : rawYmin panelD.points = 3 := rfl

theorem panelD_rawYmax : rawYmax panelD.points = 3 := rfl

/-! ## Claim C1 -/

/-- C1, counterexample: for panel A the bounds stored on the
`PreparedPanel` are *not* the padded bounds of normalization step 3 —
the stored `xmin` is the raw scan bound `0` while the padded bound is
`-0.5`. -/
theorem c1_counterexample :
    (preparedPanel appPointSizeRange appDefaultColor panelA).xmin ≠
      pXmin panelA.points ∧
    (preparedPanel appPointSizeRange appDefaultColor panelA).xmin = 0 ∧
    pXmin panelA.points = -(1 / 2) := by
  rw [preparedPanel_xmin _ _ _ panelA_ne_nil, panelA_rawXmin, panelA_pXmin]
  norm_num

/-- C1, amended: for every panel with at least one point, the bounds
stored on its `PreparedPanel` equal the *raw* scan bounds (the code adds
`dx*padding` back before storing), not the padded bounds of
normalization step 3; hit-testing therefore inverts a different mapping
than the one used for rendering. -/
theorem c1_stored_bounds (psr : ℚ × ℚ) (dc : ℚ × ℚ × ℚ) (c : ChartData)
    (h : c.points ≠ []) :
    (preparedPanel psr dc c).xmin = rawXmin c.points ∧
    (preparedPanel psr dc c).xmax = rawXmax c.points ∧
    (preparedPanel psr dc c).ymin = rawYmin c.points ∧
    (preparedPanel psr dc c).ymax = rawYmax c.points :=
  ⟨preparedPanel_xmin psr dc c h, preparedPanel_xmax psr dc c h,
   preparedPanel_ymin psr dc c h, preparedPanel_ymax psr dc c h⟩

/-- C1, witness: the amended statement instantiated at panel A. -/
theorem c1_witness :
    (preparedPanel appPointSizeRange appDefaultColor panelA).xmin =
      rawXmin panelA.points ∧
    (preparedPanel appPointSizeRange appDefaultColor panelA).xmax =
      rawXmax panelA.points ∧
    (preparedPanel appPointSizeRange appDefaultColor panelA).ymin =
      rawYmin panelA.points ∧
    (preparedPanel appPointSizeRange appDefaultColor panelA).ymax =
      rawYmax panelA.points :=
  c1_stored_bounds appPointSizeRange appDefaultColor panelA (by simp [panelA])

/-! ## Claim C3 -/

/-- C3, counterexample: none of the four coordinates claimed for the
mapped point `(t=0, p=0.10)` of panel A — render-space `(0.178, 0.569)`
and clip-space `(-0.644, -0.138)` — is within `1e-4` of the value the
code computes. -/
theorem c3_counterexample :
    ¬(|paddedUx panelA pA0 - 178 / 1000| ≤ 1 / 10000) ∧
    ¬(|paddedUy panelA pA0 - 569 / 1000| ≤ 1 / 10000) ∧
    ¬(|clipX panelA pA0 - -(644 / 1000)| ≤ 1 / 10000) ∧
    ¬(|clipY panelA pA0 - -(138 / 1000)| ≤ 1 / 10000) := by
  rw [panelA_paddedUx, panelA_paddedUy, panelA_clipX, panelA_clipY]
  norm_num [abs_le]

/-- C3, amended: for the panel with exactly the points `(t=0, p=0.10)`
and `(t=10, p=0.20)`, the padded bounds are `x:[-0.5, 10.5]` and
`y:[0.095, 0.205]` as claimed, but normalization maps `(t=0, p=0.10)` to
render-space exactly `(2/11, 2/11) ≈ (0.1818, 0.1818)` and to clip-space
exactly `(-7/11, 7/11) ≈ (-0.6364, 0.6364)` (the clip-space y is
positive because of the y flip), and that clip pair is the first entry
of the prepared position array. -/
theorem c3_scenario :
    pXmin panelA.points = -(1 / 2) ∧ pXmax panelA.points = 21 / 2 ∧
    pYmin panelA.points = 19 / 200 ∧ pYmax panelA.points = 41 / 200 ∧
    paddedUx panelA pA0 = 2 / 11 ∧ paddedUy panelA pA0 = 2 / 11 ∧
    clipX panelA pA0 = -(7 / 11) ∧ clipY panelA pA0 = 7 / 11 ∧
    (preparedPanel appPointSizeRange appDefaultColor panelA).pos.head? =
      some (-(7 / 11), 7 / 11) := by
  refine ⟨panelA_pXmin, panelA_pXmax, panelA_pYmin, panelA_pYmax,
    panelA_paddedUx, panelA_paddedUy, panelA_clipX, panelA_clipY, ?_⟩
  rw [preparedPanel_pos _ _ _ panelA_ne_nil]
  show some (clipX panelA pA0, clipY panelA pA0) = some (-(7 / 11), 7 / 11)
  rw [panelA_clipX, panelA_clipY]

/-! ## Claim C4 -/

/-- C4, counterexample: the degenerate single-point panel `(t=5, p=3)`
stores collapsed bounds with `xmin = xmax` and `ymin = ymax` — neither
`xmax > xmin` nor a fallback span of 1 holds for the stored bounds. -/
theorem c4_counterexample :
    ¬((preparedPanel appPointSizeRange appDefaultColor panelD).xmin <
        (preparedPanel appPointSizeRange appDefaultColor panelD).xmax) ∧
    ¬((preparedPanel appPointSizeRange appDefaultColor panelD).ymin <
        (preparedPanel appPointSizeRange appDefaultColor panelD).ymax) ∧
    (preparedPanel appPointSizeRange appDefaultColor panelD).xmax -
      (preparedPanel appPointSizeRange appDefaultColor panelD).xmin = 0 := by
  rw [preparedPanel_xmin _ _ _ panelD_ne_nil, preparedPanel_xmax _ _ _ panelD_ne_nil,
    preparedPanel_ymin _ _ _ panelD_ne_nil, preparedPanel_ymax _ _ _ panelD_ne_nil,
    panelD_rawXmin, panelD_rawXmax, panelD_rawYmin, panelD_rawYmax]
  norm_num

/-- C4, amended: an empty panel keeps the default bounds `0 < 1`; the
stored bounds equal the raw scan bounds, so `xmax > xmin` (resp.
`ymax > ymin`) does hold whenever two points differ in time (resp.
price); but a degenerate-range panel (all points sharing identical time
and price) stores *collapsed* bounds `xmin = xmax`, `ymin = ymax` (span
0, not 1 — the fallback span 1 only enters the padded normalization
bounds `value ± 1/20`), and each of its points still renders centered
at render-space `(0.5, 0.5)`, clip-space `(0, 0)`. -/
theorem c4_degenerate_bounds (psr : ℚ × ℚ) (dc : ℚ × ℚ × ℚ) :
    (∀ c : ChartData, c.points = [] →
      (preparedPanel psr dc c).xmin < (preparedPanel psr dc c).xmax ∧
      (preparedPanel psr dc c).ymin < (preparedPanel psr dc c).ymax) ∧
    (∀ (c : ChartData) (q r : Point), q ∈ c.points → r ∈ c.points →
      q.x < r.x →
      (preparedPanel psr dc c).xmin < (preparedPanel psr dc c).xmax) ∧
    (∀ (c : ChartData) (q r : Point), q ∈ c.points → r ∈ c.points →
      q.y < r.y →
      (preparedPanel psr dc c).ymin < (preparedPanel psr dc c).ymax) ∧
    (∀ (c : ChartData) (p : Point), p ∈ c.points →
      (∀ q ∈ c.points, q.x = p.x ∧ q.y = p.y) →
      (preparedPanel psr dc c).xmin = p.x ∧
      (preparedPanel psr dc c).xmax = p.x ∧
      (preparedPanel psr dc c).ymin = p.y ∧
      (preparedPanel psr dc c).ymax = p.y ∧
      pXmin c.points = p.x - 1 / 20 ∧ pXmax c.points = p.x + 1 / 20 ∧
      pYmin c.points = p.y - 1 / 20 ∧ pYmax c.points = p.y + 1 / 20 ∧
      ∀ q ∈ c.points, paddedUx c q = 1 / 2 ∧ paddedUy c q = 1 / 2 ∧
        clipX c q = 0 ∧ clipY c q = 0) := by
  refine ⟨?_, ?_, ?_, ?_⟩
  · intro c h
    rw [preparedPanel, if_pos h]
    exact ⟨by norm_num, by norm_num⟩
  · intro c q r hq hr hlt
    have hne : c.points ≠ [] := List.ne_nil_of_mem hq
    rw [preparedPanel_xmin _ _ _ hne, preparedPanel_xmax _ _ _ hne,
      rawXmin, rawXmax]
    exact lt_of_le_of_lt (foldMin_le_of_mem _ _ q hq)
      (lt_of_lt_of_le hlt (le_foldMax_of_mem _ _ r hr))
  · intro c q r hq hr hlt
    have hne : c.points ≠ [] := List.ne_nil_of_mem hq
    rw [preparedPanel_ymin _ _ _ hne, preparedPanel_ymax _ _ _ hne,
      rawYmin, rawYmax]
    exact lt_of_le_of_lt (foldMin_le_of_mem _ _ q hq)
      (lt_of_lt_of_le hlt (le_foldMax_of_mem _ _ r hr))
  · intro c p hp hall
    have hne : c.points ≠ [] := List.ne_nil_of_mem hp
    have hrx : rawXmin c.points = p.x :=
      foldMin_const _ _ p hp fun q hq => (hall q hq).1
    have hrX : rawXmax c.points = p.x :=
      foldMax_const _ _ p hp fun q hq => (hall q hq).1
    have hry : rawYmin c.points = p.y :=
      foldMin_const _ _ p hp fun q hq => (hall q hq).2
    have hrY : rawYmax c.points = p.y :=
      foldMax_const _ _ p hp fun q hq => (hall q hq).2
    have hdx : dxOf c.points = 1 := by rw [dxOf, hrx, hrX]; simp
    have hdy : dyOf c.points = 1 := by rw [dyOf, hry, hrY]; simp
    have hpx1 : pXmin c.points = p.x - 1 / 20 := by
      rw [pXmin, hrx, hdx, padding]; ring
    have hpx2 : pXmax c.points = p.x + 1 / 20 := by
      rw [pXmax, hrX, hdx, padding]; ring
    have hpy1 : pYmin c.points = p.y - 1 / 20 := by
      rw [pYmin, hry, hdy, padding]; ring
    have hpy2 : pYmax c.points = p.y + 1 / 20 := by
      rw [pYmax, hrY, hdy, padding]; ring
    refine ⟨by rw [preparedPanel_xmin _ _ _ hne, hrx],
      by rw [preparedPanel_xmax _ _ _ hne, hrX],
      by rw [preparedPanel_ymin _ _ _ hne, hry],
      by rw [preparedPanel_ymax _ _ _ hne, hrY],
      hpx1, hpx2, hpy1, hpy2, ?_⟩
    intro q hq
    have hux : uxOf c q = 1 / 2 := by
      rw [uxOf, hpx1, hpx2, (hall q hq).1,
        show p.x - (p.x - 1 / 20) = 1 / 20 from by ring,
        show p.x + 1 / 20 - (p.x - 1 / 20) = 1 / 10 from by ring]
      norm_num [clamp01]
    have huy : uyOf c q = 1 / 2 := by
      rw [uyOf, hpy1, hpy2, (hall q hq).2,
        show p.y - (p.y - 1 / 20) = 1 / 20 from by ring,
        show p.y + 1 / 20 - (p.y - 1 / 20) = 1 / 10 from by ring]
      norm_num [clamp01]
    have hpux : paddedUx c q = 1 / 2 := by rw [paddedUx, hux]; norm_num
    have hpuy : paddedUy c q = 1 / 2 := by rw [paddedUy, huy]; norm_num
    exact ⟨hpux, hpuy, by rw [clipX, hpux]; norm_num,
      by rw [clipY, hpuy]; norm_num⟩

/-- C4, witness: the amended statement instantiated at the degenerate
panel `(t=5, p=3)` and at the empty panel. -/
theorem c4_witness :
    ((preparedPanel appPointSizeRange appDefaultColor panelE).xmin <
      (preparedPanel appPointSizeRange appDefaultColor panelE).xmax) ∧
    ((preparedPanel appPointSizeRange appDefaultColor panelD).xmin = 5 ∧
     (preparedPanel appPointSizeRange appDefaultColor panelD).xmax = 5 ∧
     (preparedPanel appPointSizeRange appDefaultColor panelD).ymin = 3 ∧
     (preparedPanel appPointSizeRange appDefaultColor panelD).ymax = 3 ∧
     pXmin panelD.points = 5 - 1 / 20 ∧ pXmax panelD.points = 5 + 1 / 20 ∧
     pYmin panelD.points = 3 - 1 / 20 ∧ pYmax panelD.points = 3 + 1 / 20 ∧
     ∀ q ∈ panelD.points, paddedUx panelD q = 1 / 2 ∧
       paddedUy panelD q = 1 / 2 ∧ clipX panelD q = 0 ∧ clipY panelD q = 0) :=
  ⟨((c4_degenerate_bounds appPointSizeRange appDefaultColor).1 panelE rfl).1,
   (c4_degenerate_bounds appPointSizeRange appDefaultColor).2.2.2 panelD
    ⟨5, 3, none, none⟩ (by simp [panelD]) (by simp [panelD])⟩

/-! ## Claim C5 -/

/-- C5: for every point of every panel, the normalized render-space
coordinates lie within `[0.15, 0.85]` on both axes after clamping, the
resulting clip-space coordinates lie within `[-1, 1]`, and that clip
pair is what the prepared position array stores for the point. -/
theorem c5_render_clip_bounds (psr : ℚ × ℚ) (dc : ℚ × ℚ × ℚ)
    (c : ChartData) (p : Point) (hp : p ∈ c.points) :
    15 / 100 ≤ paddedUx c p ∧ paddedUx c p ≤ 85 / 100 ∧
    15 / 100 ≤ paddedUy c p ∧ paddedUy c p ≤ 85 / 100 ∧
    -1 ≤ clipX c p ∧ clipX c p ≤ 1 ∧ -1 ≤ clipY c p ∧ clipY c p ≤ 1 ∧
    (clipX c p, clipY c p) ∈ (preparedPanel psr dc c).pos := by
  have hx0 : 0 ≤ uxOf c p := clamp01_nonneg _
  have hx1 : uxOf c p ≤ 1 := clamp01_le_one _
  have hy0 : 0 ≤ uyOf c p := clamp01_nonneg _
  have hy1 : uyOf c p ≤ 1 := clamp01_le_one _
  have hpux0 : 15 / 100 ≤ paddedUx c p := by rw [paddedUx]; nlinarith
  have hpux1 : paddedUx c p ≤ 85 / 100 := by rw [paddedUx]; nlinarith
  have hpuy0 : 15 / 100 ≤ paddedUy c p := by rw [paddedUy]; nlinarith
  have hpuy1 : paddedUy c p ≤ 85 / 100 := by rw [paddedUy]; nlinarith
  refine ⟨hpux0, hpux1, hpuy0, hpuy1,
    by rw [clipX]; linarith, by rw [clipX]; linarith,
    by rw [clipY]; linarith, by rw [clipY]; linarith, ?_⟩
  rw [preparedPanel_pos _ _ _ (List.ne_nil_of_mem hp)]
  exact List.mem_map_of_mem _ hp

/-- C5, witness: the bounds instantiated at the point `(t=0, p=0.10)`
of panel A. -/
theorem c5_witness :
    15 / 100 ≤ paddedUx panelA pA0 ∧ paddedUx panelA pA0 ≤ 85 / 100 ∧
    15 / 100 ≤ paddedUy panelA pA0 ∧ paddedUy panelA pA0 ≤ 85 / 100 ∧
    -1 ≤ clipX panelA pA0 ∧ clipX panelA pA0 ≤ 1 ∧
    -1 ≤ clipY panelA pA0 ∧ clipY panelA pA0 ≤ 1 ∧
    (clipX panelA pA0, clipY panelA pA0) ∈
      (preparedPanel appPointSizeRange appDefaultColor panelA).pos :=
  c5_render_clip_bounds appPointSizeRange appDefaultColor panelA pA0
    (by simp [panelA, pA0])

/-! ## Claim C9 -/

/-- C9: a tooltip payload entry reports side "Up" exactly when the
point carries a color whose red component strictly exceeds its green
component; a point with no color, or with red ≤ green, is reported as
"Down"; and every entry of any tooltip the mouse handler returns is
built by `toTooltipPoint`. -/
theorem c9_side_classification :
    (∀ p : Point, (toTooltipPoint p).side = Side.Up ↔
      ∃ r g b, p.color = some (r, g, b) ∧ g < r) ∧
    (∀ p : Point, (toTooltipPoint p).side = Side.Down ↔
      ¬∃ r g b, p.color = some (r, g, b) ∧ g < r) ∧
    (∀ charts prepared cols cellH gap width mx my l,
      handleMouseMove charts prepared cols cellH gap width mx my = some l →
      ∀ tp ∈ l, ∃ q : Point, tp = toTooltipPoint q) := by
  have hup : ∀ p : Point, (toTooltipPoint p).side = Side.Up ↔
      ∃ r g b, p.color = some (r, g, b) ∧ g < r := by
    intro p
    rcases hc : p.color with _ | ⟨r, g, b⟩
    · simp [toTooltipPoint, isUpTrade, hc]
    · by_cases hgr : g < r
      · simp only [toTooltipPoint, isUpTrade, hc, decide_eq_true_eq]
        rw [if_pos hgr]
        exact ⟨fun _ => ⟨r, g, b, rfl, hgr⟩, fun _ => rfl⟩
      · simp only [toTooltipPoint, isUpTrade, hc, decide_eq_true_eq]
        rw [if_neg hgr]
        constructor
        · intro h; cases h
        · rintro ⟨r', g', b', heq, hlt⟩
          injection heq with heq
          cases heq
          exact absurd hlt hgr
  refine ⟨hup, ?_, ?_⟩
  · intro p
    constructor
    · intro hdown hex
      have h := (hup p).mpr hex
      rw [h] at hdown
      cases hdown
    · intro hnot
      rcases hs : (toTooltipPoint p).side with _ | _
      · exact absurd ((hup p).mp hs) hnot
      · rfl
  · intro charts prepared cols cellH gap width mx my l h tp htp
    simp only [handleMouseMove] at h
    split at h
    · split at h
      · next chart prep _ _ =>
        split at h
        · rw [tooltipFor] at h
          split at h
          · cases h
          · injection h with h
            subst h
            rcases List.mem_map.mp htp with ⟨q, _, hq⟩
            exact ⟨q, hq.symm⟩
        · cases h
      · cases h
    · cases h

/-- C9, witness: a red-dominant colored point is reported "Up", an
uncolored point is reported "Down". -/
theorem c9_witness :
    (toTooltipPoint ⟨1, 2, none, some (9 / 10, 2 / 10, 2 / 10)⟩).side =
      Side.Up ∧
    (toTooltipPoint ⟨1, 2, none, none⟩).side = Side.Down :=
  ⟨(c9_side_classification.1 _).mpr ⟨9 / 10, 2 / 10, 2 / 10, rfl, by norm_num⟩,
   (c9_side_classification.2.1 _).mpr (by rintro ⟨r, g, b, h, -⟩; cases h)⟩

/-! ## Concrete cell-lookup evaluations (scenario: 6 columns,
cellW = 200, cellH = 280, gap = 20, canvas width 1300) -/

theorem cellW_scenario : cellWOf 6 20 1300 = 200 := by
  rw [cellWOf]; norm_num

theorem colAt_scenario : colAt 6 20 1300 450 = 2 := by
  rw [colAt, cellW_scenario]
  rw [Int.floor_eq_iff]
  norm_num

theorem rowAt_scenario : rowAt 280 20 310 = 1 := by
  rw [rowAt]
  rw [Int.floor_eq_iff]
  norm_num

theorem chartIndexAt_scenario : chartIndexAt 6 280 20 1300 450 310 = 8 := by
  rw [chartIndexAt, colAt_scenario, rowAt_scenario]; norm_num

theorem colAt_gap_scenario : colAt 6 20 1300 425 = 1 := by
  rw [colAt, cellW_scenario]
  rw [Int.floor_eq_iff]
  norm_num

theorem rowAt_top_scenario : rowAt 280 20 10 = 0 := by
  rw [rowAt]
  rw [Int.floor_eq_iff]
  norm_num

theorem colAt_origin_scenario : colAt 6 20 1300 10 = 0 := by
  rw [colAt, cellW_scenario]
  rw [Int.floor_eq_iff]
  norm_num

/-! ## Claim C6 -/

/-- C6: for `n ≥ 1` panels and `cols ≥ 1` columns, the layout computes
`rows = ceil(n/cols)` and `totalHeight = rows*cellH + (rows-1)*gap + 40`
(the fixed 40-pixel bottom margin); the total height is strictly
increasing in the row count (for positive cell height and nonnegative
gap) and depends only on the number of panels, not their point
counts. -/
theorem c6_layout (n cols : ℕ) (cellH gap : ℚ) (hn : 1 ≤ n)
    (hcols : 1 ≤ cols) (hcellH : 0 < cellH) (hgap : 0 ≤ gap) :
    rowsOf n cols = ⌈(n : ℚ) / (cols : ℚ)⌉ ∧
    heightPx n cols cellH gap =
      ((rowsOf n cols : ℤ) : ℚ) * cellH +
        (((rowsOf n cols : ℤ) : ℚ) - 1) * gap + 40 ∧
    (∀ r1 r2 : ℤ, 0 ≤ r1 → r1 < r2 →
      heightOfRows r1 cellH gap < heightOfRows r2 cellH gap) ∧
    (∀ cs1 cs2 : List ChartData, cs1.length = cs2.length →
      gridHeight cs1 cols cellH gap = gridHeight cs2 cols cellH gap) := by
  refine ⟨rfl, ?_, ?_, ?_⟩
  · have hr : 1 ≤ rowsOf n cols := by
      rw [rowsOf]
      have hq : (0 : ℚ) < (n : ℚ) / (cols : ℚ) :=
        div_pos (by exact_mod_cast hn) (by exact_mod_cast hcols)
      exact Int.ceil_pos.mpr hq
    rw [heightPx, heightOfRows,
      max_eq_right (by omega : (0 : ℤ) ≤ rowsOf n cols - 1)]
    push_cast
    ring
  · intro r1 r2 h0 hlt
    rw [heightOfRows, heightOfRows]
    have hm : max 0 (r1 - 1) ≤ max 0 (r2 - 1) :=
      max_le_max le_rfl (by omega)
    have h1 : (r1 : ℚ) + 1 ≤ (r2 : ℚ) := by exact_mod_cast hlt
    have h2 : ((max 0 (r1 - 1) : ℤ) : ℚ) ≤ ((max 0 (r2 - 1) : ℤ) : ℚ) := by
      exact_mod_cast hm
    have h3 : ((max 0 (r1 - 1) : ℤ) : ℚ) * gap ≤
        ((max 0 (r2 - 1) : ℤ) : ℚ) * gap :=
      mul_le_mul_of_nonneg_right h2 hgap
    nlinarith
  · intro cs1 cs2 hlen
    rw [gridHeight, gridHeight, hlen]

/-- C6, witness: the layout facts instantiated at 7 panels, 6 columns,
cell height 280, gap 20. -/
theorem c6_witness :
    rowsOf 7 6 = ⌈(7 : ℚ) / (6 : ℚ)⌉ ∧
    heightPx 7 6 280 20 =
      ((rowsOf 7 6 : ℤ) : ℚ) * 280 + (((rowsOf 7 6 : ℤ) : ℚ) - 1) * 20 + 40 ∧
    (∀ r1 r2 : ℤ, 0 ≤ r1 → r1 < r2 →
      heightOfRows r1 280 20 < heightOfRows r2 280 20) ∧
    (∀ cs1 cs2 : List ChartData, cs1.length = cs2.length →
      gridHeight cs1 6 280 20 = gridHeight cs2 6 280 20) :=
  c6_layout 7 6 280 20 (by norm_num) (by norm_num) (by norm_num) (by norm_num)

/-! ## Claim C10 -/

/-- C10: with an empty panel list the row count is 0 and the total
height is exactly the fixed 40-pixel bottom margin (the `(rows-1)*gap`
term is clamped to 0 by `Math.max`), and for every panel count, column
count, nonnegative cell height and nonnegative gap the total height is
nonnegative. -/
theorem c10_empty_height (n cols : ℕ) (cellH gap : ℚ)
    (hcellH : 0 ≤ cellH) (hgap : 0 ≤ gap) :
    gridHeight [] cols cellH gap = 40 ∧
    rowsOf 0 cols = 0 ∧
    heightOfRows 0 cellH gap = 40 ∧
    0 ≤ heightPx n cols cellH gap := by
  have h0 : rowsOf 0 cols = 0 := by rw [rowsOf]; norm_num
  have hh0 : heightOfRows 0 cellH gap = 40 := by
    rw [heightOfRows, show max 0 ((0 : ℤ) - 1) = 0 from by norm_num]
    norm_num
  refine ⟨?_, h0, hh0, ?_⟩
  · show heightPx 0 cols cellH gap = 40
    rw [heightPx, h0, hh0]
  · have hr : 0 ≤ rowsOf n cols := by
      rw [rowsOf]
      exact Int.ceil_nonneg (div_nonneg (by positivity) (by positivity))
    rw [heightPx, heightOfRows]
    have h1 : 0 ≤ ((rowsOf n cols : ℤ) : ℚ) := by exact_mod_cast hr
    have h2 : (0 : ℤ) ≤ max 0 (rowsOf n cols - 1) := le_max_left _ _
    have h3 : 0 ≤ ((max 0 (rowsOf n cols - 1) : ℤ) : ℚ) := by exact_mod_cast h2
    nlinarith

/-- C10, witness: the statement instantiated at 13 panels, 6 columns,
cell height 280, gap 20. -/
theorem c10_witness :
    gridHeight [] 6 280 20 = 40 ∧
    rowsOf 0 6 = 0 ∧
    heightOfRows 0 280 20 = 40 ∧
    0 ≤ heightPx 13 6 280 20 :=
  c10_empty_height 13 6 280 20 (by norm_num) (by norm_num)

end GpuScatterGrid

namespace GpuScatterGrid

/-! ## Claim C7 -/

/-- C7: a panel with zero points still occupies a grid cell (its row
index lies inside the computed row count), the renderer issues no draw
call for it (its prepared count is 0, which fails the draw guard), and
hit-testing over its cell always reports no tooltip. -/
theorem c7_empty_panel (psr : ℚ × ℚ) (dc : ℚ × ℚ × ℚ)
    (charts : List ChartData) (cols : ℕ) (hcols : 0 < cols)
    (k : ℕ) (chart : ChartData)
    (hk : charts[k]? = some chart) (hempty : chart.points = []) :
    ((panelRow k cols : ℕ) : ℤ) < rowsOf charts.length cols ∧
    (∀ cellH gap cssHeight : ℚ, issuesDrawCall k cols cellH gap cssHeight
      (preparedPanel psr dc chart).count = false) ∧
    (∀ (prepared : List Prepared) (cellH gap width mx my : ℚ),
      (chartIndexAt cols cellH gap width mx my).toNat = k →
      handleMouseMove charts prepared cols cellH gap width mx my = none) := by
  have hlen : k < charts.length := by
    rcases List.getElem?_eq_some.mp hk with ⟨h, -⟩
    exact h
  refine ⟨?_, ?_, ?_⟩
  · rw [panelRow, rowsOf, Int.lt_ceil]
    have h1 : k / cols * cols < charts.length :=
      lt_of_le_of_lt (Nat.div_mul_le_self k cols) hlen
    rw [lt_div_iff₀ (by exact_mod_cast hcols : (0 : ℚ) < (cols : ℚ))]
    exact_mod_cast h1
  · intro cellH gap cssHeight
    rw [preparedPanel_count_nil _ _ _ hempty]
    simp [issuesDrawCall]
  · intro prepared cellH gap width mx my hidx
    simp only [handleMouseMove]
    split
    · rw [hidx, hk]
      rcases hp : prepared[k]? with _ | prep
      · rfl
      · dsimp only
        have hnil : ∀ lx ly : ℚ,
            nearbyPointsOf chart prep (cellWOf cols gap width) cellH lx ly = [] := by
          intro lx ly
          rw [nearbyPointsOf]
          simp [hempty]
        split
        · simp [tooltipFor, hnil]
        · rfl
    · rfl

/-- C7, witness: instantiated at a one-panel chart list whose only
panel is empty, with the pointer over that panel's cell. -/
theorem c7_witness :
    ((panelRow 0 6 : ℕ) : ℤ) < rowsOf [panelE].length 6 ∧
    issuesDrawCall 0 6 280 20 2000
      (preparedPanel appPointSizeRange appDefaultColor panelE).count = false ∧
    handleMouseMove [panelE] [] 6 280 20 1300 10 10 = none := by
  have h := c7_empty_panel appPointSizeRange appDefaultColor [panelE] 6
    (by norm_num) 0 panelE rfl rfl
  refine ⟨h.1, h.2.1 280 20 2000, h.2.2 [] 280 20 1300 10 10 ?_⟩
  rw [chartIndexAt, colAt_origin_scenario, rowAt_top_scenario]
  rfl

/-! ## Claim C8 -/

/-- C8: hit-testing determines the cell by floor-dividing the pointer
coordinates by the `(cellW+gap, cellH+gap)` spacing and maps cell
`(col, row)` to panel index `row*cols + col`; in the scenario with 6
columns, `cellW = 200`, `cellH = 280`, `gap = 20` the pointer `(450, 310)`
falls in cell `(col=2, row=1)` giving panel index `1*6+2 = 8`; a pointer
whose index is out of the panel-count bound, or which lands outside its
cell's own rectangle (in a gap), reports no hit. -/
theorem c8_cell_lookup :
    (∀ (cols : ℕ) (cellH gap width mx my : ℚ),
      chartIndexAt cols cellH gap width mx my =
        rowAt cellH gap my * (cols : ℤ) + colAt cols gap width mx) ∧
    cellWOf 6 20 1300 = 200 ∧
    colAt 6 20 1300 450 = 2 ∧
    rowAt 280 20 310 = 1 ∧
    chartIndexAt 6 280 20 1300 450 310 = 8 ∧
    (∀ (charts : List ChartData) (prepared : List Prepared) (cols : ℕ)
      (cellH gap width mx my : ℚ),
      ¬(0 ≤ chartIndexAt cols cellH gap width mx my ∧
        chartIndexAt cols cellH gap width mx my < (charts.length : ℤ)) →
      handleMouseMove charts prepared cols cellH gap width mx my = none) ∧
    (∀ (charts : List ChartData) (prepared : List Prepared) (cols : ℕ)
      (cellH gap width mx my : ℚ),
      ¬(0 ≤ mx - ((colAt cols gap width mx : ℤ) : ℚ) * (cellWOf cols gap width + gap) ∧
        mx - ((colAt cols gap width mx : ℤ) : ℚ) * (cellWOf cols gap width + gap) ≤
          cellWOf cols gap width ∧
        0 ≤ my - ((rowAt cellH gap my : ℤ) : ℚ) * (cellH + gap) ∧
        my - ((rowAt cellH gap my : ℤ) : ℚ) * (cellH + gap) ≤ cellH) →
      handleMouseMove charts prepared cols cellH gap width mx my = none) := by
  refine ⟨fun _ _ _ _ _ _ => rfl, cellW_scenario, colAt_scenario, rowAt_scenario,
    chartIndexAt_scenario, ?_, ?_⟩
  · intro charts prepared cols cellH gap width mx my h
    simp only [handleMouseMove]
    rw [if_neg h]
  · intro charts prepared cols cellH gap width mx my h
    simp only [handleMouseMove, if_neg h]
    split
    · rcases charts[(chartIndexAt cols cellH gap width mx my).toNat]? with _ | chart <;>
        rcases prepared[(chartIndexAt cols cellH gap width mx my).toNat]? with _ | prep <;>
        rfl
    · rfl

/-- C8, witness: out-of-bound index (empty chart list) and a pointer in
the horizontal gap between cells both report no hit, at concrete
inputs. -/
theorem c8_witness :
    handleMouseMove [] [] 6 280 20 1300 450 310 = none ∧
    handleMouseMove [panelA]
      [preparedPanel appPointSizeRange appDefaultColor panelA]
      6 280 20 1300 425 10 = none := by
  constructor
  · refine c8_cell_lookup.2.2.2.2.2.1 [] [] 6 280 20 1300 450 310 ?_
    rw [chartIndexAt_scenario]
    rintro ⟨-, hlt⟩
    norm_num at hlt
  · refine c8_cell_lookup.2.2.2.2.2.2 [panelA] _ 6 280 20 1300 425 10 ?_
    rw [colAt_gap_scenario, cellW_scenario]
    rintro ⟨-, hle, -⟩
    norm_num at hle

end GpuScatterGrid

namespace GpuScatterGrid

theorem uxOf_nonneg (c : ChartData) (p : Point) : 0 ≤ uxOf c p := by
  rw [uxOf]; exact clamp01_nonneg _

theorem uxOf_le_one (c : ChartData) (p : Point) : uxOf c p ≤ 1 := by
  rw [uxOf]; exact clamp01_le_one _

theorem uyOf_nonneg (c : ChartData) (p : Point) : 0 ≤ uyOf c p := by
  rw [uyOf]; exact clamp01_nonneg _

theorem uyOf_le_one (c : ChartData) (p : Point) : uyOf c p ≤ 1 := by
  rw [uyOf]; exact clamp01_le_one _

set_option maxHeartbeats 2000000 in
/-- C2, amended: the forward-then-inverse round trip succeeds only in
a narrow central band.  For a panel with positive raw time and price
spans and a point whose padded-normalized coordinates satisfy
`|ux - 1/2| < 1/5` and `|uy - 1/2| < 1/105`, hit-testing at the exact
pixel position the point renders at inside its cell returns the point
(it passes the 2%-of-span tolerance filter) and the tooltip contains
its payload entry.  Outside that band the round trip fails, because the
stored bounds are the raw, not the padded, bounds and the hit-tester
inverts y against the opposite orientation from the renderer flip. -/
theorem c2_round_trip (psr : ℚ × ℚ) (dc : ℚ × ℚ × ℚ) (c : ChartData)
    (p : Point) (cellW cellH : ℚ) (hp : p ∈ c.points)
    (hdx : rawXmin c.points < rawXmax c.points)
    (hdy : rawYmin c.points < rawYmax c.points)
    (hcw : 0 < cellW) (hch : 0 < cellH)
    (hux : |uxOf c p - 1 / 2| < 1 / 5)
    (huy : |uyOf c p - 1 / 2| < 1 / 105) :
    p ∈ nearbyPointsOf c (preparedPanel psr dc c) cellW cellH
      (paddedUx c p * cellW) (paddedUy c p * cellH) ∧
    ∃ l, tooltipFor c (preparedPanel psr dc c) cellW cellH
      (paddedUx c p * cellW) (paddedUy c p * cellH) = some l ∧
      toTooltipPoint p ∈ l := by
  have hne : c.points ≠ [] := List.ne_nil_of_mem hp
  have hDx : (0 : ℚ) < rawXmax c.points - rawXmin c.points := sub_pos.mpr hdx
  have hDy : (0 : ℚ) < rawYmax c.points - rawYmin c.points := sub_pos.mpr hdy
  have hdxOf : dxOf c.points = rawXmax c.points - rawXmin c.points := by
    rw [dxOf, if_neg (ne_of_gt hDx)]
  have hdyOf : dyOf c.points = rawYmax c.points - rawYmin c.points := by
    rw [dyOf, if_neg (ne_of_gt hDy)]
  have hsx : pXmax c.points - pXmin c.points =
      (11 / 10) * (rawXmax c.points - rawXmin c.points) := by
    rw [pXmax, pXmin, hdxOf, padding]; ring
  have hsy : pYmax c.points - pYmin c.points =
      (11 / 10) * (rawYmax c.points - rawYmin c.points) := by
    rw [pYmax, pYmin, hdyOf, padding]; ring
  have hsx_pos : 0 < pXmax c.points - pXmin c.points := by rw [hsx]; linarith
  have hsy_pos : 0 < pYmax c.points - pYmin c.points := by rw [hsy]; linarith
  have hpx_lb : rawXmin c.points ≤ p.x := by
    rw [rawXmin]; exact foldMin_le_of_mem _ _ p hp
  have hpx_ub : p.x ≤ rawXmax c.points := by
    rw [rawXmax]; exact le_foldMax_of_mem _ _ p hp
  have hpy_lb : rawYmin c.points ≤ p.y := by
    rw [rawYmin]; exact foldMin_le_of_mem _ _ p hp
  have hpy_ub : p.y ≤ rawYmax c.points := by
    rw [rawYmax]; exact le_foldMax_of_mem _ _ p hp
  have hu0 : 0 ≤ (p.x - pXmin c.points) / (pXmax c.points - pXmin c.points) := by
    apply div_nonneg _ (le_of_lt hsx_pos)
    have : pXmin c.points = rawXmin c.points -
        (rawXmax c.points - rawXmin c.points) * (5 / 100) := by
      rw [pXmin, hdxOf, padding]
    rw [this]; linarith
  have hu1 : (p.x - pXmin c.points) / (pXmax c.points - pXmin c.points) ≤ 1 := by
    rw [div_le_one hsx_pos]
    have : pXmax c.points = rawXmax c.points +
        (rawXmax c.points - rawXmin c.points) * (5 / 100) := by
      rw [pXmax, hdxOf, padding]
    linarith [this ▸ le_refl (pXmax c.points)]
  have hv0 : 0 ≤ (p.y - pYmin c.points) / (pYmax c.points - pYmin c.points) := by
    apply div_nonneg _ (le_of_lt hsy_pos)
    have : pYmin c.points = rawYmin c.points -
        (rawYmax c.points - rawYmin c.points) * (5 / 100) := by
      rw [pYmin, hdyOf, padding]
    rw [this]; linarith
  have hv1 : (p.y - pYmin c.points) / (pYmax c.points - pYmin c.points) ≤ 1 := by
    rw [div_le_one hsy_pos]
    have h2 : pYmax c.points = rawYmax c.points +
        (rawYmax c.points - rawYmin c.points) * (5 / 100) := by
      rw [pYmax, hdyOf, padding]
    linarith [h2 ▸ le_refl (pYmax c.points)]
  have huxOf_eq : uxOf c p =
      (p.x - pXmin c.points) / (pXmax c.points - pXmin c.points) := by
    rw [uxOf, clamp01_eq_self _ hu0 hu1]
  have huyOf_eq : uyOf c p =
      (p.y - pYmin c.points) / (pYmax c.points - pYmin c.points) := by
    rw [uyOf, clamp01_eq_self _ hv0 hv1]
  have hpx_eq : p.x = pXmin c.points +
      uxOf c p * (pXmax c.points - pXmin c.points) := by
    rw [huxOf_eq, div_mul_cancel₀ _ (ne_of_gt hsx_pos)]; ring
  have hpy_eq : p.y = pYmin c.points +
      uyOf c p * (pYmax c.points - pYmin c.points) := by
    rw [huyOf_eq, div_mul_cancel₀ _ (ne_of_gt hsy_pos)]; ring
  have hbx := abs_lt.mp hux
  have hby := abs_lt.mp huy
  have hx_ineq : |p.x - ((preparedPanel psr dc c).xmin + uxOf c p *
      ((preparedPanel psr dc c).xmax - (preparedPanel psr dc c).xmin))| <
      ((preparedPanel psr dc c).xmax - (preparedPanel psr dc c).xmin) *
        (2 / 100) := by
    rw [preparedPanel_xmin _ _ _ hne, preparedPanel_xmax _ _ _ hne]
    rw [hpx_eq, pXmin, pXmax, hdxOf, padding]
    rw [abs_lt]
    constructor <;>
      nlinarith [mul_pos hDx (show (0 : ℚ) < 1 / 5 - (uxOf c p - 1 / 2) from by
          linarith [hbx.2]),
        mul_pos hDx (show (0 : ℚ) < uxOf c p - 1 / 2 + 1 / 5 from by
          linarith [hbx.1])]
  have hy_ineq : |p.y - ((preparedPanel psr dc c).ymax - uyOf c p *
      ((preparedPanel psr dc c).ymax - (preparedPanel psr dc c).ymin))| <
      ((preparedPanel psr dc c).ymax - (preparedPanel psr dc c).ymin) *
        (2 / 100) := by
    rw [preparedPanel_ymin _ _ _ hne, preparedPanel_ymax _ _ _ hne]
    rw [hpy_eq, pYmin, pYmax, hdyOf, padding]
    rw [abs_lt]
    constructor <;>
      nlinarith [mul_pos hDy (show (0 : ℚ) < 1 / 105 - (uyOf c p - 1 / 2) from by
          linarith [hby.2]),
        mul_pos hDy (show (0 : ℚ) < uyOf c p - 1 / 2 + 1 / 105 from by
          linarith [hby.1])]
  have hmem : p ∈ nearbyPointsOf c (preparedPanel psr dc c) cellW cellH
      (paddedUx c p * cellW) (paddedUy c p * cellH) := by
    rw [nearbyPointsOf]
    simp only [List.mem_filter, Bool.and_eq_true, decide_eq_true_eq]
    refine ⟨hp, ?_, ?_⟩
    · rw [mul_div_cancel_right₀ _ (ne_of_gt hcw)]
      rw [show (paddedUx c p - 15 / 100) / (7 / 10) = uxOf c p from by
        rw [paddedUx]; ring]
      rw [clamp01_eq_self _ (uxOf_nonneg c p) (uxOf_le_one c p)]
      exact hx_ineq
    · rw [mul_div_cancel_right₀ _ (ne_of_gt hch)]
      rw [show (paddedUy c p - 15 / 100) / (7 / 10) = uyOf c p from by
        rw [paddedUy]; ring]
      rw [clamp01_eq_self _ (uyOf_nonneg c p) (uyOf_le_one c p)]
      exact hy_ineq
  refine ⟨hmem, ?_⟩
  refine ⟨(nearbyPointsOf c (preparedPanel psr dc c) cellW cellH
    (paddedUx c p * cellW) (paddedUy c p * cellH)).map toTooltipPoint, ?_,
    List.mem_map_of_mem _ hmem⟩
  rw [tooltipFor]
  rw [if_neg (List.ne_nil_of_mem hmem)]

end GpuScatterGrid

namespace GpuScatterGrid

/-- Witness panel: points `(0,0)`, `(10,1)`, `(5,1/2)`; its centre point
has padded-normalized coordinates exactly `(1/2, 1/2)`. -/
def panelW : ChartData :=
  { id := "W"
    points := [⟨0, 0, none, none⟩, ⟨10, 1, none, none⟩, ⟨5, 1 / 2, none, none⟩]
    color := none }

/-- The centre point `(t=5, p=1/2)` of the witness panel. -/
def pW : Point := ⟨5, 1 / 2, none, none⟩

theorem panelW_rawXmin : rawXmin panelW.points = 0 := by
  show foldMin (fun p => p.x) panelW.points = 0
  norm_num [panelW, foldMin]

theorem panelW_rawXmax : rawXmax panelW.points = 10 := by
  show foldMax (fun p => p.x) panelW.points = 10
  norm_num [panelW, foldMax]

theorem panelW_rawYmin : rawYmin panelW.points = 0 := by
  show foldMin (fun p => p.y) panelW.points = 0
  norm_num [panelW, foldMin]

theorem panelW_rawYmax : rawYmax panelW.points = 1 := by
  show foldMax (fun p => p.y) panelW.points = 1
  norm_num [panelW, foldMax]

theorem panelW_uxOf : uxOf panelW pW = 1 / 2 := by
  rw [uxOf, pXmin, pXmax, dxOf, panelW_rawXmin, panelW_rawXmax, padding]
  norm_num [pW, clamp01]

theorem panelW_uyOf : uyOf panelW pW = 1 / 2 := by
  rw [uyOf, pYmin, pYmax, dyOf, panelW_rawYmin, panelW_rawYmax, padding]
  norm_num [pW, clamp01]

/-- C2, witness: the amended round trip instantiated at the centre
point of the witness panel. -/
theorem c2_witness :
    pW ∈ panelW.points ∧
    pW ∈ nearbyPointsOf panelW
      (preparedPanel appPointSizeRange appDefaultColor panelW) 200 280
      (paddedUx panelW pW * 200) (paddedUy panelW pW * 280) ∧
    ∃ l, tooltipFor panelW
      (preparedPanel appPointSizeRange appDefaultColor panelW) 200 280
      (paddedUx panelW pW * 200) (paddedUy panelW pW * 280) = some l ∧
      toTooltipPoint pW ∈ l := by
  have hmem : pW ∈ panelW.points :=
    List.mem_cons_of_mem _ (List.mem_cons_of_mem _ (List.mem_cons_self _ _))
  have h := c2_round_trip appPointSizeRange appDefaultColor panelW pW 200 280
    hmem
    (by rw [panelW_rawXmin, panelW_rawXmax]; norm_num)
    (by rw [panelW_rawYmin, panelW_rawYmax]; norm_num)
    (by norm_num) (by norm_num)
    (by rw [panelW_uxOf]; norm_num)
    (by rw [panelW_uyOf]; norm_num)
  exact ⟨hmem, h.1, h.2⟩

/-- C2, counterexample: the point `(t=0, p=0.10)` of panel A lies
within the panel and within its padded bounds, yet hit-testing at the
exact pixel position it renders at returns no nearby point and no
tooltip — the claimed round trip fails at this input. -/
theorem c2_counterexample :
    pA0 ∈ panelA.points ∧
    pXmin panelA.points ≤ pA0.x ∧ pA0.x ≤ pXmax panelA.points ∧
    pYmin panelA.points ≤ pA0.y ∧ pA0.y ≤ pYmax panelA.points ∧
    nearbyPointsOf panelA
      (preparedPanel appPointSizeRange appDefaultColor panelA) 200 280
      (paddedUx panelA pA0 * 200) (paddedUy panelA pA0 * 280) = [] ∧
    tooltipFor panelA
      (preparedPanel appPointSizeRange appDefaultColor panelA) 200 280
      (paddedUx panelA pA0 * 200) (paddedUy panelA pA0 * 280) = none := by
  have hnil : nearbyPointsOf panelA
      (preparedPanel appPointSizeRange appDefaultColor panelA) 200 280
      (paddedUx panelA pA0 * 200) (paddedUy panelA pA0 * 280) = [] := by
    rw [panelA_paddedUx, panelA_paddedUy]
    simp only [nearbyPointsOf,
      preparedPanel_xmin _ _ _ panelA_ne_nil, preparedPanel_xmax _ _ _ panelA_ne_nil,
      preparedPanel_ymin _ _ _ panelA_ne_nil, preparedPanel_ymax _ _ _ panelA_ne_nil,
      panelA_rawXmin, panelA_rawXmax, panelA_rawYmin, panelA_rawYmax]
    simp only [panelA, List.filter_cons, List.filter_nil, Bool.and_eq_true,
      decide_eq_true_eq]
    norm_num [clamp01, abs_lt]
  refine ⟨List.mem_cons_self _ _, ?_, ?_, ?_, ?_, hnil, ?_⟩
  · rw [panelA_pXmin]; norm_num [pA0]
  · rw [panelA_pXmax]; norm_num [pA0]
  · rw [panelA_pYmin]; norm_num [pA0]
  · rw [panelA_pYmax]; norm_num [pA0]
  · rw [tooltipFor, hnil]
    rfl

end GpuScatterGrid
